import Mathlib

/-!
Verification development for the DSO observation-planning astronomy core.

The development shallowly embeds the Python source of the repository:

* `ai_astronomy_utils.py` — time conversion (`datetime_to_astronomy_time`,
  `convert_to_original_tz`), the horizon solver's air-mass computation
  (`radec_to_altaz_airmass`, `ai_localize_dso`), the rise/transit/set search
  (`calculate_rise_transit_set_fast`, `ai_localize_dso`), and the optics
  helpers (`calculate_pixel_scale`, `calculate_sensor_fov_amin`).
* `agents.py` — the bulk localization pass (`return_dsos_observer_gear`)
  and `convert_local_day_and_time_to_utc_iso`.

Instants are modelled as exact rationals (days on the solver's continuous time
axis, or seconds for calendar code); the external Astronomy Engine calls
(`SearchRiseSet`, `SearchHourAngle`, `Horizon`) are modelled as an oracle
record `SearchOracle`, with `none` standing for the engine returning `None`
or raising inside an inner `try`/`except`.  The control flow around those
calls — acceptance windows, day-boundary backward rescue, circumpolar /
never-visible classification, exception fallbacks — is translated branch by
branch from the source.
-/

/-! ## Rise/transit/set search: oracle and result types -/

/-- Oracle for the Astronomy Engine calls made by the rise/transit/set code,
for one fixed (target RA/DEC, observer) pair.

* `searchRise start limitDays` models `astro.SearchRiseSet(star, obs, Rise, start, limitDays, 0.0)`;
* `searchSet start limitDays` models `astro.SearchRiseSet(star, obs, Set, start, limitDays, 0.0)`;
* `searchTransit start` models `astro.SearchHourAngle(star, obs, 0.0, start, 1)`
  (`none` models the surrounding `try`/`except` catching an engine failure);
* `altitudeAt t` models `astro.Horizon(t, obs, ra_hours, dec, Refraction.Normal).altitude`
  (`none` models the surrounding `try`/`except` catching an engine failure).

All instants are rational days on the engine's continuous time axis. -/
structure SearchOracle where
  searchRise : ℚ → ℚ → Option ℚ
  searchSet : ℚ → ℚ → Option ℚ
  searchTransit : ℚ → Option ℚ
  altitudeAt : ℚ → Option ℚ

/-- Result record of the per-target rise/transit/set computation, mirroring
the fields of the dictionaries built by `calculate_rise_transit_set_fast`
and the corresponding local variables of `ai_localize_dso`. -/
structure RTSResult where
  rise_time : Option ℚ
  transit_time : Option ℚ
  set_time : Option ℚ
  circumpolar : Bool
  never_visible : Bool
deriving DecidableEq, Repr

/-- Acceptance filter used after each search, translating
`if day_start <= candidate < day_end: x = candidate` (else the event is
discarded and the field stays `None`). -/
def acceptWindow (lo hi : ℚ) (ev : Option ℚ) : Option ℚ :=
  match ev with
  | some t => if lo ≤ t ∧ t < hi then some t else none
  | none => none

/-- Backward-search rescue, translating the
`if <x>_time is None and <x>_event is not None:` blocks: search again from
one day before the reference instant with a two-day limit and accept the
result against the same window.  `pastEvent` is the result of that second
search.  `epochDefined` records whether `rise_j2000_epoch` is bound in the
enclosing Python scope (it is only assigned when a rise event was found);
when it is `false`, evaluating the accepted time raises a `NameError`
that the enclosing `try`/`except: pass` swallows, leaving the field as it
was. -/
def backwardRescue (lo hi : ℚ) (time1 fwdEvent pastEvent : Option ℚ)
    (epochDefined : Bool) : Option ℚ :=
  if time1.isNone ∧ fwdEvent.isSome then
    if epochDefined then
      match pastEvent with
      | some p => if lo ≤ p ∧ p < hi then some p else time1
      | none => time1
    else time1
  else time1

/-- Classification logic shared verbatim by `calculate_rise_transit_set_fast`
(lines 400-417) and `ai_localize_dso` (lines 941-958): derive the
`circumpolar` / `never_visible` pair from the raw search events, then, when a
transit time exists but the rise or set time is missing, let the altitude at
transit override that derivation. -/
def decideFlags (altAt : ℚ → Option ℚ)
    (rise_event set_event rise_time transit_time set_time : Option ℚ) :
    Bool × Bool :=
  let circumpolar0 := rise_event.isNone && set_event.isNone && transit_time.isSome
  let never_visible0 := rise_event.isNone && set_event.isNone && transit_time.isNone
  match transit_time with
  | some tt =>
      if rise_time.isNone || set_time.isNone then
        match altAt tt with
        | some alt => if 0 < alt then (true, false) else (false, true)
        | none => (false, true)
      else (circumpolar0, never_visible0)
  | none => (circumpolar0, never_visible0)

/-! ## `calculate_rise_transit_set_fast` (per-target body, lines 305-437)

`ds` is `day_start` (local midnight of the reference day, as an instant on
the continuous axis) and `rd` is the full `reference_date` instant.  The
accepted window is `[ds, ds + 1)`. -/

/-- `rise_event = astro.SearchRiseSet(..., Rise, start_astro_time, 1, 0.0)`. -/
def fast_rise_event (o : SearchOracle) (ds : ℚ) : Option ℚ :=
  o.searchRise ds 1

/-- Rise candidate accepted against the one-day window (lines 318-328). -/
def fast_rise_time1 (o : SearchOracle) (ds : ℚ) : Option ℚ :=
  acceptWindow ds (ds + 1) (fast_rise_event o ds)

/-- Transit search from the day anchor, accepted against the one-day window
(lines 331-343). -/
def fast_transit_time (o : SearchOracle) (ds : ℚ) : Option ℚ :=
  acceptWindow ds (ds + 1) (o.searchTransit ds)

/-- `set_event = astro.SearchRiseSet(..., Set, start_astro_time, 1, 0.0)`. -/
def fast_set_event (o : SearchOracle) (ds : ℚ) : Option ℚ :=
  o.searchSet ds 1

/-- Set candidate accepted against the one-day window (lines 346-356). -/
def fast_set_time1 (o : SearchOracle) (ds : ℚ) : Option ℚ :=
  acceptWindow ds (ds + 1) (fast_set_event o ds)

/-- Final rise time after the backward rescue (lines 359-381).  The rescue
condition already implies a rise event exists, so `rise_j2000_epoch` is
bound. -/
def fast_rise_time (o : SearchOracle) (ds rd : ℚ) : Option ℚ :=
  backwardRescue ds (ds + 1) (fast_rise_time1 o ds) (fast_rise_event o ds)
    (o.searchRise (rd - 1) 2) true

/-- Final set time after the backward rescue (lines 384-398); when no rise
event was found, `rise_j2000_epoch` is unbound and the `NameError` is
swallowed by the inner `except: pass`. -/
def fast_set_time (o : SearchOracle) (ds rd : ℚ) : Option ℚ :=
  backwardRescue ds (ds + 1) (fast_set_time1 o ds) (fast_set_event o ds)
    (o.searchSet (rd - 1) 2) (fast_rise_event o ds).isSome

/-- Classification for the fast search (lines 400-417). -/
def fast_flags (o : SearchOracle) (ds rd : ℚ) : Bool × Bool :=
  decideFlags o.altitudeAt (fast_rise_event o ds) (fast_set_event o ds)
    (fast_rise_time o ds rd) (fast_transit_time o ds) (fast_set_time o ds rd)

/-- Per-target result of `calculate_rise_transit_set_fast` on the non-raising
path (lines 305-437). -/
def calc_rts_fast_one (o : SearchOracle) (ds rd : ℚ) : RTSResult :=
  ⟨fast_rise_time o ds rd, fast_transit_time o ds, fast_set_time o ds rd,
    (fast_flags o ds rd).1, (fast_flags o ds rd).2⟩

/-! ## `ai_localize_dso` rise/transit/set section (lines 823-958)

Here `day_end = day_start + timedelta(days=2)` and the transit and set
searches are chained after the rise event when one exists. -/

/-- `rise_event` of `ai_localize_dso` (line 845). -/
def ai_rise_event (o : SearchOracle) (ds : ℚ) : Option ℚ :=
  o.searchRise ds 1

/-- Rise candidate accepted against the two-day window (lines 847-855). -/
def ai_rise_time1 (o : SearchOracle) (ds : ℚ) : Option ℚ :=
  acceptWindow ds (ds + 2) (ai_rise_event o ds)

/-- Start instant for the chained transit and set searches: the rise event
when found, else the day anchor (lines 859-862 and 881-884). -/
def ai_chain_start (o : SearchOracle) (ds : ℚ) : ℚ :=
  (ai_rise_event o ds).getD ds

/-- Transit search from the chain start, accepted against the two-day window
(lines 864-877). -/
def ai_transit_time (o : SearchOracle) (ds : ℚ) : Option ℚ :=
  acceptWindow ds (ds + 2) (o.searchTransit (ai_chain_start o ds))

/-- `set_event` of `ai_localize_dso`, searched from the chain start
(line 887). -/
def ai_set_event (o : SearchOracle) (ds : ℚ) : Option ℚ :=
  o.searchSet (ai_chain_start o ds) 1

/-- Set candidate accepted against the two-day window (lines 888-897). -/
def ai_set_time1 (o : SearchOracle) (ds : ℚ) : Option ℚ :=
  acceptWindow ds (ds + 2) (ai_set_event o ds)

/-- Final rise time after the backward rescue (lines 900-922); `od` is the
parsed `obs_date` instant. -/
def ai_rise_time (o : SearchOracle) (ds od : ℚ) : Option ℚ :=
  backwardRescue ds (ds + 2) (ai_rise_time1 o ds) (ai_rise_event o ds)
    (o.searchRise (od - 1) 2) true

/-- Final set time after the backward rescue (lines 925-939). -/
def ai_set_time (o : SearchOracle) (ds od : ℚ) : Option ℚ :=
  backwardRescue ds (ds + 2) (ai_set_time1 o ds) (ai_set_event o ds)
    (o.searchSet (od - 1) 2) (ai_rise_event o ds).isSome

/-- Classification for `ai_localize_dso` (lines 941-958). -/
def ai_flags (o : SearchOracle) (ds od : ℚ) : Bool × Bool :=
  decideFlags o.altitudeAt (ai_rise_event o ds) (ai_set_event o ds)
    (ai_rise_time o ds od) (ai_transit_time o ds) (ai_set_time o ds od)

/-- Rise/transit/set portion of `ai_localize_dso` on the non-raising path. -/
def ai_rts (o : SearchOracle) (ds od : ℚ) : RTSResult :=
  ⟨ai_rise_time o ds od, ai_transit_time o ds, ai_set_time o ds od,
    (ai_flags o ds od).1, (ai_flags o ds od).2⟩

/-! ## Concrete oracles

A fixed star's horizon events recur on a daily schedule; `nextOnSchedule φ t`
is the first event of the daily schedule `φ + k` (integer `k`) at or after
`t`, which is exactly the forward-search semantics of the engine. -/

/-- First instant of the daily schedule `phase + k`, `k` an integer, that is
at or after `t`. -/
def nextOnSchedule (phase t : ℚ) : ℚ :=
  phase + (Int.ceil (t - phase) : ℚ)

theorem nextOnSchedule_bounds (phase t : ℚ) :
    t ≤ nextOnSchedule phase t ∧ nextOnSchedule phase t < t + 1 := by
  unfold nextOnSchedule
  constructor
  · have h := Int.le_ceil (t - phase)
    linarith
  · have h := Int.ceil_lt_add_one (t - phase)
    linarith

/-! ## Bulk form of `calculate_rise_transit_set_fast` (lines 303-438)

The loop body sits inside `try: ... except Exception: ...`; a failure for one
target falls back to all-`None` fields with `circumpolar = False`,
`never_visible = True`, the error is printed, and the loop `results.append`
still runs, so iteration continues with the next target. -/

/-- One `(ra, dec)` input of the bulk pass together with its engine oracle;
`raisesException` models the body of the per-target `try` raising an
exception that reaches the `except Exception` handler (lines 419-426). -/
structure RTSTarget where
  ra : ℚ
  dec : ℚ
  oracle : SearchOracle
  raisesException : Bool

/-- Per-target output dictionary of `calculate_rise_transit_set_fast`
(lines 428-436). -/
structure RTSRecord where
  ra : ℚ
  dec : ℚ
  rise_time : Option ℚ
  transit_time : Option ℚ
  set_time : Option ℚ
  circumpolar : Bool
  never_visible : Bool
deriving DecidableEq, Repr

/-- Fallback record assembled by the `except Exception` handler
(lines 419-426) and the common `results.append` (lines 428-436). -/
def fallbackRecord (ra dec : ℚ) : RTSRecord :=
  ⟨ra, dec, none, none, none, false, true⟩

/-- Bulk `calculate_rise_transit_set_fast`: the loop over `ra_dec_list`. -/
def calc_rts_fast (targets : List RTSTarget) (ds rd : ℚ) : List RTSRecord :=
  targets.map fun t =>
    if t.raisesException then fallbackRecord t.ra t.dec
    else
      let r := calc_rts_fast_one t.oracle ds rd
      ⟨t.ra, t.dec, r.rise_time, r.transit_time, r.set_time,
        r.circumpolar, r.never_visible⟩

/-! ## Time/frame converter (`datetime_to_astronomy_time`, lines 83-107, and
`convert_to_original_tz`, lines 484-491)

A timezone-aware Python datetime is modelled by the UTC instant it denotes
(seconds relative to the J2000 epoch 2000-01-01T12:00:00 UTC, the epoch the
source subtracts) together with its zone's UTC offset at that instant.
Subtracting two aware datetimes compares their UTC instants, and
`astimezone` changes only the offset, never the instant. -/

/-- Timezone-aware instant: UTC seconds since the J2000 epoch plus the
attached zone's UTC offset in minutes. -/
structure AwareDateTime where
  utcSeconds : ℚ
  offsetMinutes : ℤ
deriving DecidableEq, Repr

/-- `datetime_to_astronomy_time`: `(dt - j2000_epoch).total_seconds() / 86400.0`
for an aware `dt` (lines 96-107). -/
def datetime_to_astronomy_time (t : AwareDateTime) : ℚ :=
  t.utcSeconds / 86400

/-- `convert_to_original_tz` (lines 484-491):
`j2000_epoch_utc + timedelta(days=event_days)` followed by
`.astimezone(original_tz)`, which keeps the instant and installs the
original zone's offset. -/
def convert_to_original_tz (eventDays : ℚ) (originalOffsetMinutes : ℤ) :
    AwareDateTime :=
  ⟨eventDays * 86400, originalOffsetMinutes⟩

/-! ## Horizon solver air-mass section

`radec_to_altaz_airmass` (lines 155-177) and the alt/az section of
`ai_localize_dso` (lines 805-818).  Altitudes are real degrees; the zenith
angle is `90 - altitude` and `math.radians` multiplies by `π / 180`. -/

/-- `math.radians`. -/
noncomputable def deg2rad (d : ℝ) : ℝ :=
  d * (Real.pi / 180)

/-- Plain secant air mass `1.0 / math.cos(zenith_radians)` (line 161). -/
noncomputable def secantAirmass (alt : ℝ) : ℝ :=
  1 / Real.cos (deg2rad (90 - alt))

/-- Kasten and Young 1989 air mass (line 164). -/
noncomputable def kastenYoungAirmass (alt : ℝ) : ℝ :=
  1 / (Real.cos (deg2rad (90 - alt)) +
    0.50572 * (alt + 6.07995) ^ (-1.6364 : ℝ))

/-- Air mass computed on the `altitude > 0` branch: the secant formula,
overwritten by the Kasten-Young value when `altitude < 20` (lines 161-164). -/
noncomputable def positiveAltAirmass (alt : ℝ) : ℝ :=
  if alt < 20 then kastenYoungAirmass alt else secantAirmass alt

/-- Air-mass/visibility pair of `radec_to_altaz_airmass` (lines 160-168);
`none` encodes the deliberate `float('inf')` sentinel assigned on the
below-horizon branch. -/
noncomputable def radec_airmass_visible (alt : ℝ) : Option ℝ × Bool :=
  if 0 < alt then (some (positiveAltAirmass alt), true) else (none, false)

/-- Air-mass/visibility pair of `ai_localize_dso` (lines 810-818), whose
below-horizon sentinel is the finite `float(10000000)`. -/
noncomputable def ai_airmass (alt : ℝ) : ℝ × Bool :=
  if 0 < alt then (positiveAltAirmass alt, true) else (10000000, false)

/-! ## `ai_localize_dso` top level (lines 768-989)

`geo od` models `astro.Horizon(...)` giving (altitude, azimuth) at the
observation instant.  The guard at lines 785-787 executes `return dso` on a
name `dso` that is bound nowhere in the function, so the call raises
`NameError` instead of returning the documented 7-tuple. -/

/-- Python exception escaping `ai_localize_dso`. -/
inductive PyExn where
  | nameErrorDso
deriving DecidableEq, Repr

/-- `ai_localize_dso` after date parsing: `lat`/`lon` are the optional
observer coordinates, `ds` the local-midnight anchor, `od` the parsed
observation instant.  Returns the 7-tuple
(altitude, azimuth, air mass, visible, rise, transit, set); rise/transit/set
are UTC instants, serialized downstream by an order-preserving `strftime`. -/
noncomputable def ai_localize_dso (geo : ℚ → ℝ × ℝ) (o : SearchOracle)
    (observer_lat observer_lon : Option ℚ) (ds od : ℚ) :
    Except PyExn (ℝ × ℝ × ℝ × Bool × Option ℚ × Option ℚ × Option ℚ) :=
  match observer_lat, observer_lon with
  | some _, some _ =>
      let altaz := geo od
      let av := ai_airmass altaz.1
      let r := ai_rts o ds od
      Except.ok (altaz.1, altaz.2, av.1, av.2,
        r.rise_time, r.transit_time, r.set_time)
  | _, _ => Except.error PyExn.nameErrorDso

/-! ## Bulk localization pass (`return_dsos_observer_gear`, agents.py lines 303-347)

For each static catalog row the loop first sets all six geometry variables to
`None`, calls `ai_localize_dso` only when both `latitude_deg` and
`longitude_deg` are present, and inserts the (static + geometry) tuple into
`dso_localized`. -/

/-- Static columns of one `dso` row, as read and re-inserted by the loop. -/
structure DsoRow where
  dso_id : String
  catalog : String
  name : String
  ra_dd : ℚ
  dec_dd : ℚ
  type : String
  clasz : String
  vis_mag : ℚ
  maj_axis : ℚ
  min_axis : ℚ
  size : String
  constellation : String
  constellation_abbr : String
deriving DecidableEq, Repr

/-- Geometry produced by a successful `ai_localize_dso` call for one row:
the unpacked `altitude, azimuth, air_mass, visible, rise_time, transit_time,
set_time` (agents.py lines 316-319).  Stored numeric values are modelled as
rationals. -/
structure LocGeometry where
  altitude : ℚ
  azimuth : ℚ
  air_mass : ℚ
  visible : Bool
  rise_time : Option String
  transit_time : Option String
  set_time : Option String

/-- One row of the `dso_localized` table (agents.py lines 322-347): static
columns plus the six nullable geometry columns (`visible` is not stored). -/
structure LocalizedRow where
  static : DsoRow
  altitude : Option ℚ
  azimuth : Option ℚ
  air_mass : Option ℚ
  rise_time : Option String
  set_time : Option String
  transit_time : Option String
deriving DecidableEq, Repr

/-- The per-catalog loop of `return_dsos_observer_gear` (lines 303-347):
`loc` models the `ai_localize_dso` call on `(ra_dd, dec_dd, lat, lon)`. -/
def localize_catalog (loc : ℚ → ℚ → ℚ → ℚ → LocGeometry)
    (lat lon : Option ℚ) (rows : List DsoRow) : List LocalizedRow :=
  rows.map fun r =>
    match lat, lon with
    | some la, some lo =>
        let g := loc r.ra_dd r.dec_dd la lo
        ⟨r, some g.altitude, some g.azimuth, some g.air_mass,
          g.rise_time, g.set_time, g.transit_time⟩
    | _, _ => ⟨r, none, none, none, none, none, none⟩

/-! ## Optics geometry helpers (lines 528-548) -/

/-- `calculate_pixel_scale` (lines 529-536): arcseconds per pixel. -/
def calculate_pixel_scale (focal_length_mm pixel_size_um : ℚ) : ℚ :=
  pixel_size_um / focal_length_mm * 206.265

/-- `_calculate_sensor_fov_amin` (lines 538-542): per-axis field of view in
arcminutes from a pixel scale and pixel counts. -/
def calc_sensor_fov_from_scale (pixel_scale : ℚ)
    (sensor_width_px sensor_height_px : ℕ) : ℚ × ℚ :=
  (pixel_scale * sensor_width_px / 60, pixel_scale * sensor_height_px / 60)

/-- `calculate_sensor_fov_amin` (lines 544-548). -/
def calculate_sensor_fov_amin (focal_length_mm pixel_size_um : ℚ)
    (sensor_width_px sensor_height_px : ℕ) : ℚ × ℚ :=
  calc_sensor_fov_from_scale
    (calculate_pixel_scale focal_length_mm pixel_size_um)
    sensor_width_px sensor_height_px

/-! ## `convert_local_day_and_time_to_utc_iso` (agents.py lines 536-565)

Calendar arithmetic uses the standard days-from-civil bijection; all
quantities handled here are nonnegative for the dates `strptime` accepts
(years 1-9999), so the integer divisions below agree with Python's. -/

/-- Days from 1970-01-01 of a Gregorian calendar date. -/
def daysFromCivil (y m d : ℕ) : ℤ :=
  let yAdj : ℤ := if m ≤ 2 then (y : ℤ) - 1 else (y : ℤ)
  let era : ℤ := yAdj / 400
  let yoe : ℤ := yAdj - era * 400
  let mp : ℤ := ((m : ℤ) + 9) % 12
  let doy : ℤ := (153 * mp + 2) / 5 + (d : ℤ) - 1
  let doe : ℤ := yoe * 365 + yoe / 4 - yoe / 100 + doy
  era * 146097 + doe - 719468

/-- Gregorian calendar date of a day count from 1970-01-01 (inverse of
`daysFromCivil` on its range). -/
def civilFromDays (z : ℤ) : ℤ × ℤ × ℤ :=
  let zShift := z + 719468
  let era := zShift / 146097
  let doe := zShift - era * 146097
  let yoe := (doe - doe / 1460 + doe / 36524 - doe / 146096) / 365
  let y := yoe + era * 400
  let doy := doe - (365 * yoe + yoe / 4 - yoe / 100)
  let mp := (5 * doy + 2) / 153
  let d := doy - (153 * mp + 2) / 5 + 1
  let m := if mp < 10 then mp + 3 else mp - 9
  (if m ≤ 2 then y + 1 else y, m, d)

/-- Split a character list at every occurrence of a separator character
(the behavior of `str.split(sep)` for a one-character separator). -/
def splitOnChar (sep : Char) : List Char → List (List Char)
  | [] => [[]]
  | c :: cs =>
      let rest := splitOnChar sep cs
      if c = sep then [] :: rest
      else
        match rest with
        | [] => [[c]]
        | g :: gs => (c :: g) :: gs

/-- Decimal value of a digit character. -/
def digitVal? (c : Char) : Option ℕ :=
  if c.isDigit then some (c.toNat - 48) else none

/-- Accumulate decimal digits left to right; fails on a non-digit. -/
def parseNatDigits : List Char → ℕ → Option ℕ
  | [], acc => some acc
  | c :: cs, acc =>
      match digitVal? c with
      | some d => parseNatDigits cs (10 * acc + d)
      | none => none

/-- Parse a nonempty all-digit character group, as the numeric fields of
`strptime` do. -/
def parseNatChars (cs : List Char) : Option ℕ :=
  match cs with
  | [] => none
  | _ :: _ => parseNatDigits cs 0

/-- Parse a `%Y-%m-%d` date as `strptime` does (year 1-9999, month 1-12,
day 1-31). -/
def parseLocalDate (s : String) : Option (ℕ × ℕ × ℕ) :=
  match splitOnChar '-' s.data with
  | [ys, ms, dcs] =>
      match parseNatChars ys, parseNatChars ms, parseNatChars dcs with
      | some y, some m, some d =>
          if 1 ≤ y ∧ y ≤ 9999 ∧ 1 ≤ m ∧ m ≤ 12 ∧ 1 ≤ d ∧ d ≤ 31 then
            some (y, m, d)
          else none
      | _, _, _ => none
  | _ => none

/-- Parse a local time, trying `%H:%M:%S` and then `%H:%M` exactly as the
source's format loop does (lines 546-551). -/
def parseLocalTime (s : String) : Option (ℕ × ℕ × ℕ) :=
  match splitOnChar ':' s.data with
  | [hs, ms, ss] =>
      match parseNatChars hs, parseNatChars ms, parseNatChars ss with
      | some h, some m, some sec =>
          if h ≤ 23 ∧ m ≤ 59 ∧ sec ≤ 59 then some (h, m, sec) else none
      | _, _, _ => none
  | [hs, ms] =>
      match parseNatChars hs, parseNatChars ms with
      | some h, some m =>
          if h ≤ 23 ∧ m ≤ 59 then some (h, m, 0) else none
      | _, _ => none
  | _ => none

/-- Wall-clock seconds since 1970-01-01T00:00:00 of a parsed local
date/time, before the zone offset is applied. -/
def localWallSeconds (y m d h mi s : ℕ) : ℤ :=
  86400 * daysFromCivil y m d + 3600 * (h : ℤ) + 60 * (mi : ℤ) + (s : ℤ)

/-- Left-pad a number to two digits. -/
def pad2 (n : ℕ) : String :=
  if n < 10 then "0" ++ toString n else toString n

/-- Left-pad a year to four digits. -/
def pad4 (n : ℕ) : String :=
  if n < 10 then "000" ++ toString n
  else if n < 100 then "00" ++ toString n
  else if n < 1000 then "0" ++ toString n
  else toString n

/-- Serialize UTC seconds since 1970-01-01 as
`utc_dt.replace(tzinfo=None).isoformat(timespec="seconds") + "Z"`
(agents.py line 565): an ISO-8601 string with second precision and a
literal `Z` suffix. -/
def formatUtcIso (secs : ℤ) : String :=
  let day := secs / 86400
  let rem := secs - day * 86400
  let c := civilFromDays day
  let h := rem / 3600
  let mi := (rem - h * 3600) / 60
  let s := rem - h * 3600 - mi * 60
  pad4 c.1.toNat ++ "-" ++ pad2 c.2.1.toNat ++ "-" ++ pad2 c.2.2.toNat ++
    "T" ++ pad2 h.toNat ++ ":" ++ pad2 mi.toNat ++ ":" ++ pad2 s.toNat ++ "Z"

/-- `convert_local_day_and_time_to_utc_iso` (agents.py lines 536-565).
`offsetMinutes` is the IANA zone's UTC offset that `ZoneInfo(timezone_str)`
resolves for this wall-clock time; the naive datetime is interpreted as
wall-clock time in that zone (`naive.replace(tzinfo=tz)`) and converted to
UTC by subtracting the offset.  `none` models the `ValueError` raised when
neither time format parses. -/
def convert_local_day_and_time_to_utc_iso (local_date local_time : String)
    (offsetMinutes : ℤ) : Option String :=
  match parseLocalDate local_date, parseLocalTime local_time with
  | some dte, some tme =>
      some (formatUtcIso
        (localWallSeconds dte.1 dte.2.1 dte.2.2 tme.1 tme.2.1 tme.2.2 -
          60 * offsetMinutes))
  | _, _ => none

/-- UTC offset, in minutes, of America/Chicago in December (Central Standard
Time, UTC-6): the offset `ZoneInfo("America/Chicago")` resolves for the wall
clock 2025-12-04 22:00. -/
def chicagoDecemberOffsetMinutes : ℤ := -360

/-! ## Helper lemmas about the search combinators -/

theorem acceptWindow_eq_some {lo hi : ℚ} {ev : Option ℚ} {x : ℚ}
    (h : acceptWindow lo hi ev = some x) :
    ev = some x ∧ lo ≤ x ∧ x < hi := by
  unfold acceptWindow at h
  rcases ev with _ | t
  · simp at h
  · by_cases hw : lo ≤ t ∧ t < hi
    · simp only [if_pos hw, Option.some.injEq] at h
      exact ⟨by rw [h], h ▸ hw⟩
    · simp [if_neg hw] at h

theorem acceptWindow_some_of {lo hi t : ℚ} (hw : lo ≤ t ∧ t < hi) :
    acceptWindow lo hi (some t) = some t := by
  unfold acceptWindow
  simp [hw]

theorem backwardRescue_of_some {lo hi : ℚ} {t : ℚ} (fe pe : Option ℚ)
    (g : Bool) :
    backwardRescue lo hi (some t) fe pe g = some t := by
  unfold backwardRescue
  simp

theorem backwardRescue_eq_some {lo hi : ℚ} {t1 fe pe : Option ℚ} {g : Bool}
    {x : ℚ} (h : backwardRescue lo hi t1 fe pe g = some x) :
    t1 = some x ∨ (pe = some x ∧ lo ≤ x ∧ x < hi) := by
  unfold backwardRescue at h
  by_cases hc : t1.isNone ∧ fe.isSome
  · rw [if_pos hc] at h
    rcases g with _ | _
    · simp only [Bool.false_eq_true, if_neg] at h
      exact Or.inl h
    · rw [if_pos rfl] at h
      rcases pe with _ | p
      · exact Or.inl h
      · dsimp only at h
        by_cases hw : lo ≤ p ∧ p < hi
        · rw [if_pos hw, Option.some.injEq] at h
          exact Or.inr ⟨by rw [h], h ▸ hw⟩
        · rw [if_neg hw] at h
          exact Or.inl h
  · rw [if_neg hc] at h
    exact Or.inl h

theorem backwardRescue_none_of_none {lo hi : ℚ} {pe : Option ℚ} {g : Bool} :
    backwardRescue lo hi none none pe g = none := by
  unfold backwardRescue
  simp

/-- The two classification flags are never simultaneously true. -/
theorem decideFlags_not_both (altAt : ℚ → Option ℚ)
    (re se rt tt st : Option ℚ) :
    ¬ ((decideFlags altAt re se rt tt st).1 = true ∧
       (decideFlags altAt re se rt tt st).2 = true) := by
  unfold decideFlags
  rcases tt with _ | t
  · simp
  · by_cases hm : rt.isNone || st.isNone
    · simp only [hm, if_pos]
      rcases altAt t with _ | alt
      · simp
      · by_cases ha : (0 : ℚ) < alt <;> simp [ha]
    · simp only [Bool.not_eq_true] at hm
      simp [hm]

/-- When a transit exists but rise or set is missing and the altitude probe
succeeds, the flags are exactly the altitude-sign classification. -/
theorem decideFlags_override (altAt : ℚ → Option ℚ)
    (re se rt st : Option ℚ) (t alt : ℚ)
    (hmiss : rt = none ∨ st = none) (halt : altAt t = some alt) :
    decideFlags altAt re se rt (some t) st =
      (if 0 < alt then (true, false) else (false, true)) := by
  unfold decideFlags
  have hm : (rt.isNone || st.isNone) = true := by
    rcases hmiss with h | h <;> subst h <;> simp
  dsimp only
  rw [if_pos hm, halt]

theorem acceptWindow_none (lo hi : ℚ) : acceptWindow lo hi none = none := rfl

/-- Any `some` value produced by an accept-then-rescue chain lies in the
acceptance window, provided the first-pass value does. -/
theorem backwardRescue_window {lo hi : ℚ} {t1 fe pe : Option ℚ} {g : Bool}
    {x : ℚ} (ht1 : ∀ y, t1 = some y → lo ≤ y ∧ y < hi)
    (h : backwardRescue lo hi t1 fe pe g = some x) : lo ≤ x ∧ x < hi := by
  rcases backwardRescue_eq_some h with h1 | ⟨_, hw⟩
  · exact ht1 x h1
  · exact hw

/-! ## Concrete engine schedules

Each oracle below realizes the forward-search semantics of the engine for a
fixed star whose horizon events recur on a daily schedule. -/

/-- A star with daily schedule (relative to local midnight): transit 01:00,
set 07:00, rise 19:00.  The object is above the horizon across local
midnight, so the calendar day's set and transit precede its rise. -/
def lateRiseOracle : SearchOracle :=
  ⟨fun t _ => some (nextOnSchedule (19/24) t),
   fun t _ => some (nextOnSchedule (7/24) t),
   fun t => some (nextOnSchedule (1/24) t),
   fun _ => some 45⟩

/-- A star with daily schedule rise 04:48, transit 10:48, set 16:48 — an
ordinary day with rise, transit and set in order. -/
def orderedDayOracle : SearchOracle :=
  ⟨fun t _ => some (nextOnSchedule (1/5) t),
   fun t _ => some (nextOnSchedule (7/10) t),
   fun t => some (nextOnSchedule (9/20) t),
   fun _ => some 50⟩

/-- A star rising late in the evening (22:48) whose transit (06:00) and set
(13:12) fall on the following calendar day. -/
def eveningRiseOracle : SearchOracle :=
  ⟨fun t _ => some (nextOnSchedule (19/20) t),
   fun t _ => some (nextOnSchedule (11/20) t),
   fun t => some (nextOnSchedule (1/4) t),
   fun _ => some 45⟩

/-- Evaluation rule for `nextOnSchedule` at concrete inputs. -/
theorem nextOnSchedule_eq (phase t : ℚ) (k : ℤ)
    (h1 : (k : ℚ) - 1 < t - phase) (h2 : t - phase ≤ (k : ℚ)) :
    nextOnSchedule phase t = phase + (k : ℚ) := by
  unfold nextOnSchedule
  have hc : Int.ceil (t - phase) = k := by
    rw [Int.ceil_eq_iff]
    exact ⟨by exact_mod_cast h1, h2⟩
  rw [hc]

/-- The fast search on the late-rise star, day anchored at 0: it returns the
day's rise 19:00, transit 01:00 and set 07:00 unordered. -/
theorem calc_rts_fast_one_lateRise_eval :
    calc_rts_fast_one lateRiseOracle 0 (1/2) =
      ⟨some (19/24), some (1/24), some (7/24), false, false⟩ := by
  have e1 : nextOnSchedule (19/24) 0 = 19/24 := by
    rw [nextOnSchedule_eq (19/24) 0 0 (by norm_num) (by norm_num)]; norm_num
  have e2 : nextOnSchedule (1/24) 0 = 1/24 := by
    rw [nextOnSchedule_eq (1/24) 0 0 (by norm_num) (by norm_num)]; norm_num
  have e3 : nextOnSchedule (7/24) 0 = 7/24 := by
    rw [nextOnSchedule_eq (7/24) 0 0 (by norm_num) (by norm_num)]; norm_num
  simp only [calc_rts_fast_one, fast_rise_time, fast_rise_time1, fast_rise_event,
    fast_transit_time, fast_set_time, fast_set_time1, fast_set_event, fast_flags,
    lateRiseOracle, e1, e2, e3, acceptWindow, backwardRescue, decideFlags]
  norm_num

/-- The chained search on the ordered-day star, day anchored at 0. -/
theorem ai_rts_orderedDay_eval :
    ai_rts orderedDayOracle 0 0 =
      ⟨some (1/5), some (9/20), some (7/10), false, false⟩ := by
  have e1 : nextOnSchedule (1/5) 0 = 1/5 := by
    rw [nextOnSchedule_eq (1/5) 0 0 (by norm_num) (by norm_num)]; norm_num
  have e2 : nextOnSchedule (9/20) (1/5) = 9/20 := by
    rw [nextOnSchedule_eq (9/20) (1/5) 0 (by norm_num) (by norm_num)]; norm_num
  have e3 : nextOnSchedule (7/10) (1/5) = 7/10 := by
    rw [nextOnSchedule_eq (7/10) (1/5) 0 (by norm_num) (by norm_num)]; norm_num
  simp only [ai_rts, ai_rise_time, ai_rise_time1, ai_rise_event, ai_chain_start,
    ai_transit_time, ai_set_time, ai_set_time1, ai_set_event, ai_flags,
    orderedDayOracle, Option.getD, e1, e2, e3, acceptWindow, backwardRescue,
    decideFlags]
  norm_num

/-- The chained search on the evening-rise star, day anchored at 0: the
accepted transit 5/4 and set 31/20 lie on the following calendar day. -/
theorem ai_rts_eveningRise_eval :
    ai_rts eveningRiseOracle 0 0 =
      ⟨some (19/20), some (5/4), some (31/20), false, false⟩ := by
  have e1 : nextOnSchedule (19/20) 0 = 19/20 := by
    rw [nextOnSchedule_eq (19/20) 0 0 (by norm_num) (by norm_num)]; norm_num
  have e2 : nextOnSchedule (1/4) (19/20) = 5/4 := by
    rw [nextOnSchedule_eq (1/4) (19/20) 1 (by norm_num) (by norm_num)]; norm_num
  have e3 : nextOnSchedule (11/20) (19/20) = 31/20 := by
    rw [nextOnSchedule_eq (11/20) (19/20) 1 (by norm_num) (by norm_num)]; norm_num
  simp only [ai_rts, ai_rise_time, ai_rise_time1, ai_rise_event, ai_chain_start,
    ai_transit_time, ai_set_time, ai_set_time1, ai_set_event, ai_flags,
    eveningRiseOracle, Option.getD, e1, e2, e3, acceptWindow, backwardRescue,
    decideFlags]
  norm_num

/-! ## Claim C1 -/

/-- C1 counterexample.  The claim states that whenever the search returns a
non-null rise, transit and set for one (target, site, reference day), they
satisfy rise ≤ transit ≤ set in UTC order.  For
`calculate_rise_transit_set_fast` each of the three events is searched
independently from the day anchor and accepted against the same one-day
window, so for a star that is up across local midnight (schedule: transit
01:00, set 07:00, rise 19:00) the function returns all three events of the
reference day with rise 19:00 > transit 01:00 (and > set 07:00). -/
theorem calc_rts_fast_order_counterexample :
    (calc_rts_fast_one lateRiseOracle 0 (1/2)).rise_time = some (19/24) ∧
    (calc_rts_fast_one lateRiseOracle 0 (1/2)).transit_time = some (1/24) ∧
    (calc_rts_fast_one lateRiseOracle 0 (1/2)).set_time = some (7/24) ∧
    ¬ ((19 : ℚ)/24 ≤ 1/24) := by
  rw [calc_rts_fast_one_lateRise_eval]
  refine ⟨rfl, rfl, rfl, by norm_num⟩

/-- C1 as amended.  For `ai_localize_dso`, whose transit and set searches
are chained to start at the rise event, rise ≤ transit ≤ set does hold for
any engine whose forward searches return an event at or after the start
instant and within the search limit (`hRiseB`, `hSetB`, `hTrF`) and for
which the first meridian transit after the reported rise precedes the first
set after it (`hTS`, true of any object that rises and then sets).  For
`calculate_rise_transit_set_fast` no such ordering holds (see the
counterexample); there each event only lies within the reference day. -/
theorem ai_rts_ordered_of_forward_engine (o : SearchOracle) (ds od r t s : ℚ)
    (hRiseB : ∀ a x, o.searchRise a 1 = some x → a ≤ x ∧ x < a + 1)
    (hSetB : ∀ a x, o.searchSet a 1 = some x → a ≤ x ∧ x < a + 1)
    (hTrF : ∀ a x, o.searchTransit a = some x → a ≤ x)
    (hTS : ∀ re, o.searchRise ds 1 = some re → ∀ x y,
        o.searchTransit re = some x → o.searchSet re 1 = some y → x ≤ y)
    (hr : (ai_rts o ds od).rise_time = some r)
    (ht : (ai_rts o ds od).transit_time = some t)
    (hs : (ai_rts o ds od).set_time = some s) :
    r ≤ t ∧ t ≤ s := by
  have hr' : ai_rise_time o ds od = some r := hr
  have ht' : ai_transit_time o ds = some t := ht
  have hs' : ai_set_time o ds od = some s := hs
  rcases hre : ai_rise_event o ds with _ | re
  · exfalso
    have h1 : ai_rise_time1 o ds = none := by
      unfold ai_rise_time1
      rw [hre, acceptWindow_none]
    have : ai_rise_time o ds od = none := by
      unfold ai_rise_time
      rw [h1, hre]
      exact backwardRescue_none_of_none
    rw [this] at hr'
    exact Option.noConfusion hr'
  · have hreS : o.searchRise ds 1 = some re := hre
    obtain ⟨hre1, hre2⟩ := hRiseB ds re hreS
    have h1 : ai_rise_time1 o ds = some re := by
      unfold ai_rise_time1
      rw [hre]
      exact acceptWindow_some_of ⟨hre1, by linarith⟩
    have hrr : ai_rise_time o ds od = some re := by
      unfold ai_rise_time
      rw [h1]
      exact backwardRescue_of_some _ _ _
    have hr_eq : r = re := by
      rw [hrr] at hr'
      exact (Option.some.injEq _ _ ▸ hr').symm
    have hcs : ai_chain_start o ds = re := by
      unfold ai_chain_start
      rw [hre]
      rfl
    have htr : o.searchTransit re = some t ∧ ds ≤ t ∧ t < ds + 2 := by
      have := acceptWindow_eq_some (ht' : acceptWindow ds (ds + 2)
        (o.searchTransit (ai_chain_start o ds)) = some t)
      rw [hcs] at this
      exact ⟨this.1, this.2⟩
    have hrt : r ≤ t := by
      have := hTrF re t htr.1
      rw [hr_eq]
      exact this
    rcases hsev : o.searchSet re 1 with _ | s0
    · exfalso
      have hse : ai_set_event o ds = none := by
        unfold ai_set_event
        rw [hcs]
        exact hsev
      have h2 : ai_set_time1 o ds = none := by
        unfold ai_set_time1
        rw [hse, acceptWindow_none]
      have : ai_set_time o ds od = none := by
        unfold ai_set_time
        rw [h2, hse]
        exact backwardRescue_none_of_none
      rw [this] at hs'
      exact Option.noConfusion hs'
    · obtain ⟨hs1, hs2⟩ := hSetB re s0 hsev
      have hse : ai_set_event o ds = some s0 := by
        unfold ai_set_event
        rw [hcs]
        exact hsev
      have h2 : ai_set_time1 o ds = some s0 := by
        unfold ai_set_time1
        rw [hse]
        exact acceptWindow_some_of ⟨by linarith, by linarith⟩
      have hss : ai_set_time o ds od = some s0 := by
        unfold ai_set_time
        rw [h2]
        exact backwardRescue_of_some _ _ _
      have hs_eq : s = s0 := by
        rw [hss] at hs'
        exact (Option.some.injEq _ _ ▸ hs').symm
      refine ⟨hrt, ?_⟩
      have := hTS re hreS t s0 htr.1 hsev
      rw [hs_eq]
      exact this

/-- Witness for the amended C1 at an ordinary ordered day: the amended
theorem applies and yields rise 04:48 ≤ transit 10:48 ≤ set 16:48. -/
theorem ai_rts_ordered_witness :
    (ai_rts orderedDayOracle 0 0).rise_time = some (1/5) ∧
    ((1 : ℚ)/5 ≤ 9/20 ∧ (9 : ℚ)/20 ≤ 7/10) := by
  have he1 : nextOnSchedule (1/5) 0 = 1/5 := by
    rw [nextOnSchedule_eq (1/5) 0 0 (by norm_num) (by norm_num)]; norm_num
  have he2 : nextOnSchedule (9/20) (1/5) = 9/20 := by
    rw [nextOnSchedule_eq (9/20) (1/5) 0 (by norm_num) (by norm_num)]; norm_num
  have he3 : nextOnSchedule (7/10) (1/5) = 7/10 := by
    rw [nextOnSchedule_eq (7/10) (1/5) 0 (by norm_num) (by norm_num)]; norm_num
  refine ⟨by rw [ai_rts_orderedDay_eval], ?_⟩
  refine ai_rts_ordered_of_forward_engine orderedDayOracle 0 0 (1/5) (9/20)
    (7/10) ?_ ?_ ?_ ?_
    (by rw [ai_rts_orderedDay_eval]) (by rw [ai_rts_orderedDay_eval])
    (by rw [ai_rts_orderedDay_eval])
  · intro a x hx
    injection hx with hx
    rw [← hx]
    exact nextOnSchedule_bounds _ _
  · intro a x hx
    injection hx with hx
    rw [← hx]
    exact nextOnSchedule_bounds _ _
  · intro a x hx
    injection hx with hx
    rw [← hx]
    exact (nextOnSchedule_bounds _ _).1
  · intro re hre x y hx hy
    injection hre with hre
    injection hx with hx
    injection hy with hy
    rw [← hx, ← hy, ← hre, he1, he2, he3]
    norm_num

/-! ## Claim C3 -/

/-- C3 counterexample.  The claim states that every accepted event lies
within one day of the local-midnight anchor, a wider window applying only to
a set chained after a rise.  In `ai_localize_dso` the acceptance window is
`[day_start, day_start + 2)` for the rise, the transit and the set alike,
and the transit search is also chained after the rise event; for a star
rising at 22:48 the accepted transit is 06:00 of the *following* day —
an event that is neither a set nor within one day of the anchor. -/
theorem ai_rts_transit_second_day_counterexample :
    (ai_rts eveningRiseOracle 0 0).transit_time = some (5/4) ∧
    ¬ ((5 : ℚ)/4 < 0 + 1) ∧ ¬ ((5 : ℚ)/4 ≤ 0 + 1) := by
  rw [ai_rts_eveningRise_eval]
  refine ⟨rfl, by norm_num, by norm_num⟩

/-- C3 as amended.  `calculate_rise_transit_set_fast` accepts each event
only within `[day_start, day_start + 1)`; `ai_localize_dso` accepts its
rise, transit and set each within the widened window
`[day_start, day_start + 2)` (not only a chained set), and its rise
additionally lies within one day of the anchor whenever the engine's
forward rise search respects its one-day limit. -/
theorem rts_accept_windows (o : SearchOracle) (ds rd od x : ℚ) :
    ((calc_rts_fast_one o ds rd).rise_time = some x → ds ≤ x ∧ x < ds + 1) ∧
    ((calc_rts_fast_one o ds rd).transit_time = some x → ds ≤ x ∧ x < ds + 1) ∧
    ((calc_rts_fast_one o ds rd).set_time = some x → ds ≤ x ∧ x < ds + 1) ∧
    ((ai_rts o ds od).rise_time = some x → ds ≤ x ∧ x < ds + 2) ∧
    ((ai_rts o ds od).transit_time = some x → ds ≤ x ∧ x < ds + 2) ∧
    ((ai_rts o ds od).set_time = some x → ds ≤ x ∧ x < ds + 2) ∧
    ((∀ a y, o.searchRise a 1 = some y → a ≤ y ∧ y < a + 1) →
      (ai_rts o ds od).rise_time = some x → ds ≤ x ∧ x < ds + 1) := by
  refine ⟨?_, ?_, ?_, ?_, ?_, ?_, ?_⟩
  · intro h
    exact backwardRescue_window
      (fun y hy => (acceptWindow_eq_some hy).2) (h : fast_rise_time o ds rd = some x)
  · intro h
    exact (acceptWindow_eq_some (h : fast_transit_time o ds = some x)).2
  · intro h
    exact backwardRescue_window
      (fun y hy => (acceptWindow_eq_some hy).2) (h : fast_set_time o ds rd = some x)
  · intro h
    exact backwardRescue_window
      (fun y hy => (acceptWindow_eq_some hy).2) (h : ai_rise_time o ds od = some x)
  · intro h
    exact (acceptWindow_eq_some (h : ai_transit_time o ds = some x)).2
  · intro h
    exact backwardRescue_window
      (fun y hy => (acceptWindow_eq_some hy).2) (h : ai_set_time o ds od = some x)
  · intro hB h
    have h' : ai_rise_time o ds od = some x := h
    rcases hre : ai_rise_event o ds with _ | re
    · exfalso
      have h1 : ai_rise_time1 o ds = none := by
        unfold ai_rise_time1
        rw [hre, acceptWindow_none]
      have : ai_rise_time o ds od = none := by
        unfold ai_rise_time
        rw [h1, hre]
        exact backwardRescue_none_of_none
      rw [this] at h'
      exact Option.noConfusion h'
    · obtain ⟨hb1, hb2⟩ := hB ds re hre
      have h1 : ai_rise_time1 o ds = some re := by
        unfold ai_rise_time1
        rw [hre]
        exact acceptWindow_some_of ⟨hb1, by linarith⟩
      have hrt : ai_rise_time o ds od = some re := by
        unfold ai_rise_time
        rw [h1]
        exact backwardRescue_of_some _ _ _
      rw [hrt] at h'
      obtain rfl : re = x := by
        injection h'
      exact ⟨hb1, hb2⟩

/-- Witness for the amended C3 window property.  On the late-rise star the
fast search accepts the rise 19:00, which the theorem places inside the
one-day window; on the evening-rise star the chained search accepts the
next-day set 31/20 inside the two-day window. -/
theorem rts_accept_windows_witness :
    (calc_rts_fast_one lateRiseOracle 0 (1/2)).rise_time = some (19/24) ∧
    ((0 : ℚ) ≤ 19/24 ∧ (19 : ℚ)/24 < 0 + 1) ∧
    (ai_rts eveningRiseOracle 0 0).set_time = some (31/20) ∧
    ((0 : ℚ) ≤ 31/20 ∧ (31 : ℚ)/20 < 0 + 2) := by
  refine ⟨by rw [calc_rts_fast_one_lateRise_eval], ?_,
    by rw [ai_rts_eveningRise_eval], ?_⟩
  · exact (rts_accept_windows lateRiseOracle 0 (1/2) 0 (19/24)).1
      (by rw [calc_rts_fast_one_lateRise_eval])
  · exact (rts_accept_windows eveningRiseOracle 0 (1/2) 0 (31/20)).2.2.2.2.2.1
      (by rw [ai_rts_eveningRise_eval])

/-! ## Claim C2 -/

/-- Exclusivity specialization for the fast per-target result. -/
theorem calc_rts_fast_one_not_both (o : SearchOracle) (ds rd : ℚ) :
    ¬ ((calc_rts_fast_one o ds rd).circumpolar = true ∧
       (calc_rts_fast_one o ds rd).never_visible = true) :=
  decideFlags_not_both _ _ _ _ _ _

/-- Exclusivity specialization for the chained per-target result. -/
theorem ai_rts_not_both (o : SearchOracle) (ds od : ℚ) :
    ¬ ((ai_rts o ds od).circumpolar = true ∧
       (ai_rts o ds od).never_visible = true) :=
  decideFlags_not_both _ _ _ _ _ _

/-- A star that never crosses the horizon but transits at 08:00 at positive
altitude: the altitude-at-transit override classifies it circumpolar. -/
def circumpolarOracle : SearchOracle :=
  ⟨fun _ _ => none, fun _ _ => none,
   fun t => some (nextOnSchedule (1/3) t), fun _ => some 30⟩

/-- The fast search on the circumpolar star, day anchored at 0. -/
theorem calc_rts_fast_one_circumpolar_eval :
    calc_rts_fast_one circumpolarOracle 0 0 =
      ⟨none, some (1/3), none, true, false⟩ := by
  have e : nextOnSchedule (1/3) 0 = 1/3 := by
    rw [nextOnSchedule_eq (1/3) 0 0 (by norm_num) (by norm_num)]; norm_num
  simp only [calc_rts_fast_one, fast_rise_time, fast_rise_time1, fast_rise_event,
    fast_transit_time, fast_set_time, fast_set_time1, fast_set_event, fast_flags,
    circumpolarOracle, e, acceptWindow, backwardRescue, decideFlags]
  norm_num

/-- C2.  For every per-target result of either search the `circumpolar` and
`never_visible` flags are never both true — including the records of the
bulk pass, whose exception fallback sets them to `(false, true)` — and
whenever a transit time exists but the rise time or the set time is missing
and the altitude probe at the transit instant succeeds, the flags equal the
altitude-sign classification: positive altitude gives
`(circumpolar, never_visible) = (true, false)`, non-positive altitude gives
`(false, true)`, regardless of the flags derived from the raw events. -/
theorem rts_flags_exclusive_and_altitude_override
    (o : SearchOracle) (ds rd od : ℚ) :
    (¬ ((calc_rts_fast_one o ds rd).circumpolar = true ∧
        (calc_rts_fast_one o ds rd).never_visible = true)) ∧
    (¬ ((ai_rts o ds od).circumpolar = true ∧
        (ai_rts o ds od).never_visible = true)) ∧
    (∀ (targets : List RTSTarget) (i : ℕ) (r : RTSRecord),
        (calc_rts_fast targets ds rd)[i]? = some r →
        ¬ (r.circumpolar = true ∧ r.never_visible = true)) ∧
    (∀ tt alt, (calc_rts_fast_one o ds rd).transit_time = some tt →
        ((calc_rts_fast_one o ds rd).rise_time = none ∨
         (calc_rts_fast_one o ds rd).set_time = none) →
        o.altitudeAt tt = some alt →
        ((0 < alt → (calc_rts_fast_one o ds rd).circumpolar = true ∧
            (calc_rts_fast_one o ds rd).never_visible = false) ∧
         (alt ≤ 0 → (calc_rts_fast_one o ds rd).circumpolar = false ∧
            (calc_rts_fast_one o ds rd).never_visible = true))) ∧
    (∀ tt alt, (ai_rts o ds od).transit_time = some tt →
        ((ai_rts o ds od).rise_time = none ∨
         (ai_rts o ds od).set_time = none) →
        o.altitudeAt tt = some alt →
        ((0 < alt → (ai_rts o ds od).circumpolar = true ∧
            (ai_rts o ds od).never_visible = false) ∧
         (alt ≤ 0 → (ai_rts o ds od).circumpolar = false ∧
            (ai_rts o ds od).never_visible = true))) := by
  refine ⟨calc_rts_fast_one_not_both o ds rd, ai_rts_not_both o ds od, ?_, ?_, ?_⟩
  · intro targets i r h
    simp only [calc_rts_fast, List.getElem?_map] at h
    rcases ht : targets[i]? with _ | t
    · rw [ht] at h
      exact Option.noConfusion h
    · rw [ht] at h
      simp only [Option.map_some'] at h
      rcases hre : t.raisesException with _ | _
      · rw [hre] at h
        simp only [Bool.false_eq_true, if_false] at h
        injection h with h
        intro hb
        rw [← h] at hb
        exact decideFlags_not_both t.oracle.altitudeAt
          (fast_rise_event t.oracle ds) (fast_set_event t.oracle ds)
          (fast_rise_time t.oracle ds rd) (fast_transit_time t.oracle ds)
          (fast_set_time t.oracle ds rd) hb
      · rw [hre] at h
        simp only [if_true] at h
        injection h with h
        intro hb
        rw [← h] at hb
        exact Bool.false_ne_true hb.1
  · intro tt alt htt hmiss halt
    have hf : fast_flags o ds rd =
        (if 0 < alt then (true, false) else (false, true)) := by
      unfold fast_flags
      have htt' : fast_transit_time o ds = some tt := htt
      rw [htt']
      exact decideFlags_override _ _ _ _ _ _ _ hmiss halt
    constructor
    · intro ha
      have hp : fast_flags o ds rd = (true, false) := by rw [hf, if_pos ha]
      exact ⟨congrArg Prod.fst hp, congrArg Prod.snd hp⟩
    · intro ha
      have hp : fast_flags o ds rd = (false, true) := by
        rw [hf, if_neg (not_lt.mpr ha)]
      exact ⟨congrArg Prod.fst hp, congrArg Prod.snd hp⟩
  · intro tt alt htt hmiss halt
    have hf : ai_flags o ds od =
        (if 0 < alt then (true, false) else (false, true)) := by
      unfold ai_flags
      have htt' : ai_transit_time o ds = some tt := htt
      rw [htt']
      exact decideFlags_override _ _ _ _ _ _ _ hmiss halt
    constructor
    · intro ha
      have hp : ai_flags o ds od = (true, false) := by rw [hf, if_pos ha]
      exact ⟨congrArg Prod.fst hp, congrArg Prod.snd hp⟩
    · intro ha
      have hp : ai_flags o ds od = (false, true) := by
        rw [hf, if_neg (not_lt.mpr ha)]
      exact ⟨congrArg Prod.fst hp, congrArg Prod.snd hp⟩

/-- Witness for C2 on the circumpolar star: transit found at positive
altitude with rise and set missing, so the override yields
`circumpolar = true`, `never_visible = false`; the two flags are not both
true. -/
theorem rts_flags_witness :
    (calc_rts_fast_one circumpolarOracle 0 0).transit_time = some (1/3) ∧
    ((calc_rts_fast_one circumpolarOracle 0 0).circumpolar = true ∧
     (calc_rts_fast_one circumpolarOracle 0 0).never_visible = false) ∧
    ¬ ((calc_rts_fast_one circumpolarOracle 0 0).circumpolar = true ∧
       (calc_rts_fast_one circumpolarOracle 0 0).never_visible = true) := by
  have h := rts_flags_exclusive_and_altitude_override circumpolarOracle 0 0 0
  refine ⟨by rw [calc_rts_fast_one_circumpolar_eval], ?_, h.1⟩
  exact (h.2.2.2.1 (1/3) 30 (by rw [calc_rts_fast_one_circumpolar_eval])
    (Or.inl (by rw [calc_rts_fast_one_circumpolar_eval])) rfl).1 (by norm_num)

/-! ## Claim C6 -/

/-- C6.  The bulk pass returns one record per input target, and any target
whose computation raises inside the per-target `try` still yields a record
with its own `ra`/`dec`, all-null times, `circumpolar = false` and
`never_visible = true`; the loop appends it and proceeds, so the exception
never escapes the bulk call. -/
theorem calc_rts_fast_exception_fallback (targets : List RTSTarget)
    (ds rd : ℚ) :
    (calc_rts_fast targets ds rd).length = targets.length ∧
    ∀ (i : ℕ) (t : RTSTarget), targets[i]? = some t →
      t.raisesException = true →
      (calc_rts_fast targets ds rd)[i]? =
        some (fallbackRecord t.ra t.dec) := by
  constructor
  · simp [calc_rts_fast]
  · intro i t ht hre
    simp only [calc_rts_fast, List.getElem?_map, ht, Option.map_some', hre,
      if_true]

/-- A target whose per-target computation raises. -/
def failingTarget : RTSTarget := ⟨1, 2, circumpolarOracle, true⟩

/-- A target whose per-target computation succeeds. -/
def healthyTarget : RTSTarget := ⟨3, 4, circumpolarOracle, false⟩

/-- Witness for C6 on a two-target list whose first target raises: the bulk
pass still returns two records and the first is the fallback record. -/
theorem calc_rts_fast_exception_fallback_witness :
    ([failingTarget, healthyTarget][0]? = some failingTarget) ∧
    failingTarget.raisesException = true ∧
    (calc_rts_fast [failingTarget, healthyTarget] 0 0).length = 2 ∧
    (calc_rts_fast [failingTarget, healthyTarget] 0 0)[0]? =
      some (fallbackRecord 1 2) := by
  refine ⟨rfl, rfl, ?_, ?_⟩
  · exact (calc_rts_fast_exception_fallback [failingTarget, healthyTarget]
      0 0).1
  · exact (calc_rts_fast_exception_fallback [failingTarget, healthyTarget]
      0 0).2 0 failingTarget rfl rfl

/-! ## Claim C7 -/

/-- C7.  When either observer coordinate is absent, the bulk localization
loop stores a row for every catalog entry whose six geometry columns are
all null and whose static columns are the entry's own, and it completes
(total function) without invoking the localizer. -/
theorem localize_catalog_missing_site_nulls
    (loc : ℚ → ℚ → ℚ → ℚ → LocGeometry) (lat lon : Option ℚ)
    (rows : List DsoRow) (h : lat = none ∨ lon = none) :
    (localize_catalog loc lat lon rows).length = rows.length ∧
    ∀ (i : ℕ) (r : DsoRow), rows[i]? = some r →
      (localize_catalog loc lat lon rows)[i]? =
        some ⟨r, none, none, none, none, none, none⟩ := by
  constructor
  · simp [localize_catalog]
  · intro i r hr
    simp only [localize_catalog, List.getElem?_map, hr, Option.map_some']
    rcases h with h | h
    · subst h; cases lon <;> rfl
    · subst h; cases lat <;> rfl

/-- A concrete static catalog row. -/
def m31Row : DsoRow :=
  ⟨"M 31", "M 31", "Andromeda Galaxy", 10683/1000, 41269/1000, "Gx", "Gal",
    344/100, 190, 60, "190x60", "Andromeda", "And"⟩

/-- Witness for C7: with a latitude present but no longitude, the single-row
catalog localizes to one row with every geometry field null and the static
row unchanged. -/
theorem localize_catalog_missing_site_nulls_witness :
    (localize_catalog (fun _ _ _ _ => ⟨0, 0, 1, true, none, none, none⟩)
        (some (3871/100)) none [m31Row]).length = 1 ∧
    (localize_catalog (fun _ _ _ _ => ⟨0, 0, 1, true, none, none, none⟩)
        (some (3871/100)) none [m31Row])[0]? =
      some ⟨m31Row, none, none, none, none, none, none⟩ := by
  have h := localize_catalog_missing_site_nulls
    (fun _ _ _ _ => ⟨0, 0, 1, true, none, none, none⟩)
    (some (3871/100)) none [m31Row] (Or.inr rfl)
  exact ⟨h.1, h.2 0 m31Row rfl⟩

/-! ## Claim C5 -/

/-- C5.  Mapping a timezone-aware instant to days since the J2000 epoch and
back, reinstalling the original zone, reproduces the instant exactly (hence
in particular to sub-second precision); the embedding computes with exact
rationals, so the floating-point rounding of the source is not modelled. -/
theorem astronomy_time_roundtrip (t : AwareDateTime) :
    convert_to_original_tz (datetime_to_astronomy_time t) t.offsetMinutes
      = t := by
  unfold convert_to_original_tz datetime_to_astronomy_time
  cases t with
  | mk secs off =>
      simp only
      congr 1
      exact div_mul_cancel₀ secs (by norm_num)

/-! ## Claim C9 -/

/-- C9.  The pixel scale is `(pixel_size_um / focal_length_mm) * 206.265`
arcseconds per pixel and the per-axis sensor field of view is the pixel
scale times the axis pixel count over 60; for a 650 mm focal length with
3.76 µm pixels the scale is within 0.001 of 1.194 arcsec/pixel, and for a
6248 x 4176 sensor the fields of view are within 0.1 of 124.3 and 83.1
arcminutes. -/
theorem optics_pixel_scale_fov (f p : ℚ) (hf : 0 < f) (hp : 0 < p)
    (w h : ℕ) :
    calculate_pixel_scale f p = p / f * 206.265 ∧
    calculate_sensor_fov_amin f p w h =
      (calculate_pixel_scale f p * w / 60,
       calculate_pixel_scale f p * h / 60) ∧
    |calculate_pixel_scale 650 3.76 - 1.194| < 1/1000 ∧
    |(calculate_sensor_fov_amin 650 3.76 6248 4176).1 - 124.3| < 1/10 ∧
    |(calculate_sensor_fov_amin 650 3.76 6248 4176).2 - 83.1| < 1/10 := by
  refine ⟨rfl, rfl, ?_, ?_, ?_⟩
  · rw [abs_sub_lt_iff]
    norm_num [calculate_pixel_scale]
  · rw [abs_sub_lt_iff]
    norm_num [calculate_pixel_scale, calculate_sensor_fov_amin,
      calc_sensor_fov_from_scale]
  · rw [abs_sub_lt_iff]
    norm_num [calculate_pixel_scale, calculate_sensor_fov_amin,
      calc_sensor_fov_from_scale]

/-- Witness for C9 at the example inputs. -/
theorem optics_pixel_scale_fov_witness :
    calculate_pixel_scale 650 3.76 = 3.76 / 650 * 206.265 ∧
    |calculate_pixel_scale 650 3.76 - 1.194| < 1/1000 := by
  have h := optics_pixel_scale_fov 650 3.76 (by norm_num) (by norm_num)
    6248 4176
  exact ⟨h.1, h.2.2.1⟩

/-! ## Claim C10 -/

/-- C10.  When the observer latitude or longitude is `None`, the guard
branch of `ai_localize_dso` executes `return dso` on an unbound name, so
the call raises (`NameError`) and never produces the documented 7-tuple. -/
theorem ai_localize_dso_missing_geometry_raises
    (geo : ℚ → ℝ × ℝ) (o : SearchOracle) (lat lon : Option ℚ) (ds od : ℚ)
    (h : lat = none ∨ lon = none) :
    ai_localize_dso geo o lat lon ds od =
      Except.error PyExn.nameErrorDso ∧
    ∀ v, ai_localize_dso geo o lat lon ds od ≠ Except.ok v := by
  have he : ai_localize_dso geo o lat lon ds od =
      Except.error PyExn.nameErrorDso := by
    unfold ai_localize_dso
    rcases h with h | h
    · subst h
      rfl
    · subst h
      cases lat <;> rfl
  refine ⟨he, fun v hv => ?_⟩
  rw [he] at hv
  exact Except.noConfusion hv

/-- Witness for C10 with a missing latitude. -/
theorem ai_localize_dso_missing_geometry_witness :
    ai_localize_dso (fun _ => ((0 : ℝ), (0 : ℝ))) circumpolarOracle none
      (some 1) 0 0 = Except.error PyExn.nameErrorDso :=
  (ai_localize_dso_missing_geometry_raises (fun _ => ((0 : ℝ), (0 : ℝ)))
    circumpolarOracle none (some 1) 0 0 (Or.inl rfl)).1

/-! ## Claim C4 -/

/-- On the Kasten-Young branch (0 < altitude < 20) the air-mass denominator
is positive and at most one. -/
theorem kastenYoung_denom_bounds (alt : ℝ) (h0 : 0 < alt) (h20 : alt < 20) :
    0 < Real.cos (deg2rad (90 - alt)) +
        0.50572 * (alt + 6.07995) ^ (-1.6364 : ℝ) ∧
    Real.cos (deg2rad (90 - alt)) +
        0.50572 * (alt + 6.07995) ^ (-1.6364 : ℝ) ≤ 1 := by
  have hpi := Real.pi_pos
  have hz_eq : deg2rad (90 - alt) = (90 - alt) * (Real.pi / 180) := rfl
  have hz0 : 0 < deg2rad (90 - alt) := by
    rw [hz_eq]
    have : (0 : ℝ) < 90 - alt := by linarith
    positivity
  have hzhi : deg2rad (90 - alt) < Real.pi / 2 := by
    rw [hz_eq]
    have h1 : (90 - alt) * (Real.pi / 180) < 90 * (Real.pi / 180) := by
      have : (90 - alt : ℝ) < 90 := by linarith
      exact mul_lt_mul_of_pos_right this (by positivity)
    have h2 : (90 : ℝ) * (Real.pi / 180) = Real.pi / 2 := by ring
    linarith
  have hzlo : Real.pi / 3 ≤ deg2rad (90 - alt) := by
    rw [hz_eq]
    have h70 : (70 : ℝ) ≤ 90 - alt := by linarith
    have h1 : (70 : ℝ) * (Real.pi / 180) ≤ (90 - alt) * (Real.pi / 180) :=
      mul_le_mul_of_nonneg_right h70 (by positivity)
    have h2 : Real.pi / 3 ≤ (70 : ℝ) * (Real.pi / 180) := by nlinarith
    linarith
  have hcos_pos : 0 < Real.cos (deg2rad (90 - alt)) :=
    Real.cos_pos_of_mem_Ioo ⟨by linarith, hzhi⟩
  have hcos_half : Real.cos (deg2rad (90 - alt)) ≤ 1 / 2 := by
    have hc := Real.cos_le_cos_of_nonneg_of_le_pi (by positivity)
      (by linarith) hzlo
    rw [Real.cos_pi_div_three] at hc
    exact hc
  have hb : (0 : ℝ) < alt + 6.07995 := by linarith
  have hcorr_pos : 0 < 0.50572 * (alt + 6.07995) ^ (-1.6364 : ℝ) :=
    mul_pos (by norm_num) (Real.rpow_pos_of_pos hb _)
  have hcorr_le : 0.50572 * (alt + 6.07995) ^ (-1.6364 : ℝ) ≤ (9 : ℝ) / 100 := by
    have hb1 : (1 : ℝ) ≤ alt + 6.07995 := by linarith
    have e1 : (alt + 6.07995) ^ (-1.6364 : ℝ) ≤ (alt + 6.07995) ^ (-1 : ℝ) :=
      Real.rpow_le_rpow_of_exponent_le hb1 (by norm_num)
    have e2 : (alt + 6.07995) ^ (-1 : ℝ) = (alt + 6.07995)⁻¹ :=
      Real.rpow_neg_one _
    have e3 : (alt + 6.07995)⁻¹ ≤ (6.07995 : ℝ)⁻¹ :=
      inv_anti₀ (by norm_num) (by linarith)
    have e4 : (alt + 6.07995) ^ (-1.6364 : ℝ) ≤ (6.07995 : ℝ)⁻¹ := by
      rw [e2] at e1
      exact e1.trans e3
    have e5 : (0.50572 : ℝ) * (6.07995 : ℝ)⁻¹ ≤ 9 / 100 := by
      rw [mul_inv_le_iff₀ (by norm_num)]
      norm_num
    calc 0.50572 * (alt + 6.07995) ^ (-1.6364 : ℝ)
        ≤ 0.50572 * (6.07995 : ℝ)⁻¹ :=
          mul_le_mul_of_nonneg_left e4 (by norm_num)
      _ ≤ 9 / 100 := e5
  constructor
  · positivity
  · linarith

/-- For altitudes in (0, 90] the computed air mass is at least one. -/
theorem one_le_positiveAltAirmass (alt : ℝ) (h0 : 0 < alt)
    (h90 : alt ≤ 90) : 1 ≤ positiveAltAirmass alt := by
  unfold positiveAltAirmass
  by_cases h20 : alt < 20
  · rw [if_pos h20]
    unfold kastenYoungAirmass
    obtain ⟨hd0, hd1⟩ := kastenYoung_denom_bounds alt h0 h20
    exact one_le_one_div hd0 hd1
  · rw [if_neg h20]
    unfold secantAirmass
    have hz_eq : deg2rad (90 - alt) = (90 - alt) * (Real.pi / 180) := rfl
    have hpi := Real.pi_pos
    have hz0 : 0 ≤ deg2rad (90 - alt) := by
      rw [hz_eq]
      have : (0 : ℝ) ≤ 90 - alt := by linarith
      positivity
    have hzhi : deg2rad (90 - alt) < Real.pi / 2 := by
      rw [hz_eq]
      have h1 : (90 - alt) * (Real.pi / 180) < 90 * (Real.pi / 180) := by
        have : (90 - alt : ℝ) < 90 := by linarith
        exact mul_lt_mul_of_pos_right this (by positivity)
      have h2 : (90 : ℝ) * (Real.pi / 180) = Real.pi / 2 := by ring
      linarith
    have hcos_pos : 0 < Real.cos (deg2rad (90 - alt)) :=
      Real.cos_pos_of_mem_Ioo ⟨by linarith, hzhi⟩
    exact one_le_one_div hcos_pos (Real.cos_le_one _)

/-- C4.  For altitudes above the horizon both solvers report
visibility = true and an air mass equal to the plain secant formula for
altitude at least 20 degrees and to the Kasten-Young 1989 formula below 20
degrees, and that air mass is at least 1; at or below the horizon
`radec_to_altaz_airmass` stores the deliberate infinity sentinel (encoded
`none`) and `ai_localize_dso` the finite sentinel 10000000, both with
visibility = false. -/
theorem airmass_formula_and_bounds (alt : ℝ) (h90 : alt ≤ 90) :
    (0 < alt →
      radec_airmass_visible alt = (some (positiveAltAirmass alt), true) ∧
      ai_airmass alt = (positiveAltAirmass alt, true) ∧
      (20 ≤ alt →
        positiveAltAirmass alt = 1 / Real.cos (deg2rad (90 - alt))) ∧
      (alt < 20 → positiveAltAirmass alt =
        1 / (Real.cos (deg2rad (90 - alt)) +
          0.50572 * (alt + 6.07995) ^ (-1.6364 : ℝ))) ∧
      1 ≤ positiveAltAirmass alt) ∧
    (alt ≤ 0 →
      radec_airmass_visible alt = (none, false) ∧
      ai_airmass alt = (10000000, false)) := by
  constructor
  · intro h0
    refine ⟨?_, ?_, ?_, ?_, one_le_positiveAltAirmass alt h0 h90⟩
    · unfold radec_airmass_visible
      rw [if_pos h0]
    · unfold ai_airmass
      rw [if_pos h0]
    · intro h20
      unfold positiveAltAirmass secantAirmass
      rw [if_neg (not_lt.mpr h20)]
    · intro h20
      unfold positiveAltAirmass kastenYoungAirmass
      rw [if_pos h20]
  · intro h0
    have hn : ¬ 0 < alt := not_lt.mpr h0
    constructor
    · unfold radec_airmass_visible
      rw [if_neg hn]
    · unfold ai_airmass
      rw [if_neg hn]

/-- Witness for C4 at altitude 45 degrees. -/
theorem airmass_formula_witness :
    1 ≤ positiveAltAirmass 45 ∧
    radec_airmass_visible 45 = (some (positiveAltAirmass 45), true) ∧
    ai_airmass 45 = (positiveAltAirmass 45, true) := by
  have h := (airmass_formula_and_bounds 45 (by norm_num)).1 (by norm_num)
  exact ⟨h.2.2.2.2, h.1, h.2.1⟩

/-! ## Claim C8 -/

/-- Every serialized instant carries the literal `Z` suffix. -/
theorem formatUtcIso_ends_z (secs : ℤ) :
    ∃ p, formatUtcIso secs = p ++ "Z" := by
  unfold formatUtcIso
  exact ⟨_, rfl⟩

/-- C8.  `convert_local_day_and_time_to_utc_iso` interprets its date/time
arguments as wall-clock time in the zone whose resolved offset is supplied,
serializes the instant shifted to UTC with second precision and a literal
`Z` suffix, and on the example inputs (2025-12-04 22:00 in
America/Chicago, CST = UTC-6) returns `2025-12-05T04:00:00Z`. -/
theorem convert_local_to_utc_iso_spec :
    convert_local_day_and_time_to_utc_iso "2025-12-04" "22:00"
      chicagoDecemberOffsetMinutes = some "2025-12-05T04:00:00Z" ∧
    ∀ d t off out,
      convert_local_day_and_time_to_utc_iso d t off = some out →
      (∃ p, out = p ++ "Z") ∧
      ∃ dte tme, parseLocalDate d = some dte ∧ parseLocalTime t = some tme ∧
        out = formatUtcIso
          (localWallSeconds dte.1 dte.2.1 dte.2.2 tme.1 tme.2.1 tme.2.2 -
            60 * off) := by
  constructor
  · decide
  · intro d t off out h
    unfold convert_local_day_and_time_to_utc_iso at h
    rcases hd : parseLocalDate d with _ | dte
    · rw [hd] at h
      exact Option.noConfusion h
    · rcases htm : parseLocalTime t with _ | tme
      · rw [hd, htm] at h
        exact Option.noConfusion h
      · rw [hd, htm] at h
        dsimp only at h
        injection h with h
        refine ⟨?_, dte, tme, rfl, rfl, h.symm⟩
        rw [← h]
        exact formatUtcIso_ends_z _

/-- Witness for C8: the general statement applied at the example call. -/
theorem convert_local_to_utc_iso_witness :
    (∃ p, "2025-12-05T04:00:00Z" = p ++ "Z") ∧
    ∃ dte tme,
      parseLocalDate "2025-12-04" = some dte ∧
      parseLocalTime "22:00" = some tme ∧
      "2025-12-05T04:00:00Z" = formatUtcIso
        (localWallSeconds dte.1 dte.2.1 dte.2.2 tme.1 tme.2.1 tme.2.2 -
          60 * chicagoDecemberOffsetMinutes) :=
  convert_local_to_utc_iso_spec.2 "2025-12-04" "22:00"
    chicagoDecemberOffsetMinutes "2025-12-05T04:00:00Z" (by decide)
